import Mathlib

/-!
# zyd-fetch: shallow embedding of the `ApiService` request gateway

This file embeds the TypeScript `ApiService` class of zyd-fetch (the
axios wrapper): its response interceptor (success handler and error
handler), the generic `request` operation, the verb helpers, `upload`
and `download`.  The axios transport itself is an external collaborator
and is modelled as a function from a request descriptor to an outcome
(a response envelope or an axios error); likewise JSON serialization of
an error object is external and the serialized form is carried as a
field of the error.

JavaScript conventions used throughout:
* an optional field of type `T` is `Option T`, `none` standing for
  `undefined`;
* truthiness of an optional boolean is `some true`;
* strict inequality between a possibly-absent business code and the
  configured success code is decidable inequality on `JPrim`;
* object spread `..o` over string-keyed header maps is a right-biased
  merge of `String → Option String` functions.
-/

/-- A JavaScript primitive as it occurs in the business-code comparison
`code !== successStatusCode`: a number, a string, or `undefined`
(the field being absent from `response.data`). -/
inductive JPrim where
  | num (n : Int)
  | str (s : String)
  | undef
deriving DecidableEq, Repr

/-- Truthiness of an optional boolean flag (`undefined` is falsy). -/
def jsTruthy : Option Bool → Bool
  | some true => true
  | _ => false

/-- Auxiliary scan for substring search on character lists. -/
def jsIncludesAux (needle : List Char) : List Char → Bool
  | [] => needle.isPrefixOf []
  | c :: rest => needle.isPrefixOf (c :: rest) || jsIncludesAux needle rest

/-- `hay.includes(needle)`: substring containment, as used by
`JSON.stringify(error).includes('timeout')`. -/
def jsIncludes (hay needle : String) : Bool :=
  jsIncludesAux needle.toList hay.toList

/-- A string-keyed JavaScript object holding header entries. -/
def HeaderMap := String → Option String

/-- Object spread `\x7b ...base, ...overlay \x7d` on header objects:
keys of `overlay` win. -/
def objSpread (base overlay : HeaderMap) : HeaderMap :=
  fun k => match overlay k with
    | some v => some v
    | none => base k

/-- The empty header object. -/
def emptyHeaders : HeaderMap := fun _ => none

/-- The built-in HTTP status-code message table (source `_statusMap`,
TS version lines 170-184). -/
def _statusMap : Nat → Option String := fun s =>
  if s = 400 then some "请求错误"
  else if s = 401 then some "未授权，请登录"
  else if s = 403 then some "拒绝访问"
  else if s = 404 then some "请求错误,未找到该资源"
  else if s = 405 then some "请求方法未允许"
  else if s = 408 then some "请求超时"
  else if s = 500 then some "服务器端出错"
  else if s = 501 then some "网络未实现"
  else if s = 502 then some "网络错误"
  else if s = 503 then some "服务不可用"
  else if s = 504 then some "网络超时"
  else if s = 505 then some "http版本不支持该请求"
  else if s = 506 then some "http代理错误"
  else none

/-- The per-request custom fields the response interceptor reads from
`response.config` (`CustomInternalAxiosRequestConfig`). -/
structure ReqConfig where
  hasErrorMessage : Option Bool := none
  returnFullResponse : Option Bool := none
deriving DecidableEq, Repr

/-- The response headers object, reduced to the one field the success
handler destructures: truthiness of `headers.isBlob`. -/
structure RespHeaders where
  isBlob : Bool := false
deriving DecidableEq, Repr

/-- The parsed business payload `response.data`, with the `code` and
`msg` fields the success handler destructures from it. -/
structure BizData where
  code : JPrim := .undef
  msg : Option String := none
deriving DecidableEq, Repr

/-- An axios response envelope as consumed by the success handler:
`headers`, `config` and `data`. -/
structure ResponseEnvelope where
  headers : RespHeaders
  config : ReqConfig
  data : BizData
deriving DecidableEq, Repr

/-- A value the response interceptor can hand back to the caller:
the full envelope, the parsed payload `response.data`, or whatever a
caller-supplied `responseInterceptor` hook returned. -/
inductive JSValue where
  | envelope (r : ResponseEnvelope)
  | payload (d : BizData)
  | raw (s : String)
deriving DecidableEq, Repr

/-- The `error.response` object of an axios error: the HTTP `status`
field (possibly `undefined`). -/
structure ErrResponse where
  status : Option Nat := none
deriving DecidableEq, Repr

/-- An axios error as consumed by the error handler.  `config` is
`error.config` (absent for errors raised outside a dispatched request),
`isCancel` is the value of `axios.isCancel(error)`, `response` is the
attached HTTP response if any, `message` is the mutable message slot,
and `serialized` is what `JSON.stringify(error)` yields for this error
(serialization of a JS object is performed by the runtime, outside this
library). -/
structure AxiosError where
  config : Option ReqConfig := none
  isCancel : Bool := false
  response : Option ErrResponse := none
  message : String := ""
  serialized : String := ""
deriving DecidableEq, Repr

/-- The `ApiService` instance state captured at construction:
the configured business success code (default `200`), whether an
`onError` notifier was supplied, the resolved status-message table
(`statusMap || _statusMap`), and the optional caller-supplied
`responseInterceptor` hook. -/
structure ApiService where
  successStatusCode : JPrim := .num 200
  hasOnError : Bool := false
  statusMap : Nat → Option String := _statusMap
  responseInterceptor : Option (ResponseEnvelope → JSValue) := none

/-- The `hasErrorMessage` flag the error handler reads from
`error.config || \x7b\x7d`. -/
def AxiosError.configHEM (e : AxiosError) : Option Bool :=
  match e.config with
  | some c => c.hasErrorMessage
  | none => none

namespace ApiService

/-- The success branch of the response interceptor (TS lines 252-274).
Returns the fulfilled value together with the list of arguments passed
to the `onError` notifier (each the `msg` field, possibly absent). -/
def successHandler (svc : ApiService) (r : ResponseEnvelope) :
    JSValue × List (Option String) :=
  match svc.responseInterceptor with
  | some hook => (hook r, [])
  | none =>
    let notes :=
      if jsTruthy r.config.hasErrorMessage && r.data.code ≠ svc.successStatusCode then
        if svc.hasOnError then [r.data.msg] else []
      else []
    let res :=
      if r.headers.isBlob || jsTruthy r.config.returnFullResponse then
        JSValue.envelope r
      else
        JSValue.payload r.data
    (res, notes)

/-- The message resolved for an HTTP failure carrying `status` (TS
lines 284-290).  `status && this.statusMap[status]` tests truthiness of
both the status (`0` and `undefined` are falsy) and the table entry
(the empty string is falsy); the fallback interpolates the status as
JavaScript renders it (`undefined` prints as the word). -/
def httpStatusMessage (svc : ApiService) (status : Option Nat) : String :=
  let statStr := match status with
    | some s => toString s
    | none => "undefined"
  let tableHit : Option String :=
    match status with
    | some s =>
      if s ≠ 0 then
        match svc.statusMap s with
        | some m => if m ≠ "" then some m else none
        | none => none
      else none
    | none => none
  match tableHit with
  | some m => m
  | none => "连接错误" ++ statStr

/-- The error branch of the response interceptor (TS lines 275-302).
Returns the (possibly message-annotated) error that is re-raised via
`Promise.reject`, together with the list of arguments passed to the
`onError` notifier.  A cancellation is re-raised untouched; otherwise,
unless `hasErrorMessage` is explicitly `false`, a message is resolved
(from the status table for HTTP failures, from the timeout substring
test on the serialized error for pure network failures) and the
notifier, if configured, is invoked with it. -/
def errorHandler (svc : ApiService) (e : AxiosError) :
    AxiosError × List (Option String) :=
  if e.isCancel then (e, [])
  else if e.configHEM ≠ some false then
    let msg :=
      match e.response with
      | some resp => httpStatusMessage svc resp.status
      | none =>
        if jsIncludes e.serialized "timeout" then "服务器响应超时，请刷新当前页"
        else "连接服务器失败"
    ({ e with message := msg }, if svc.hasOnError then [some msg] else [])
  else (e, [])

/-- One transport outcome pushed through the response interceptor pair:
a fulfilled envelope goes to the success handler, a rejection to the
error handler and stays a rejection. -/
def runCall (svc : ApiService) (outcome : Except AxiosError ResponseEnvelope) :
    Except AxiosError JSValue × List (Option String) :=
  match outcome with
  | .ok r =>
    let p := svc.successHandler r
    (.ok p.1, p.2)
  | .error e =>
    let p := svc.errorHandler e
    (.error p.1, p.2)

/-- A request descriptor (`CustomRequestConfig`) as built by the verb
helpers and `upload`. -/
structure RequestDescriptor where
  method : String
  url : String
  params : Option String := none
  data : Option String := none
  headers : HeaderMap := emptyHeaders
  hasErrorMessage : Option Bool := none
  returnFullResponse : Option Bool := none

/-- The transport collaborator: axios dispatching one descriptor and
settling with an envelope or an error. -/
def Transport := RequestDescriptor → Except AxiosError ResponseEnvelope

/-- `request(config)` (TS lines 311-320): dispatch through the
transport, let the interceptor pair classify the outcome; the
`try/catch` re-throws the caught error unchanged. -/
def request (svc : ApiService) (transport : Transport)
    (cfg : RequestDescriptor) : Except AxiosError JSValue × List (Option String) :=
  svc.runCall (transport cfg)

/-- `get(url, params, hasErrorMessage = true, headers = \x7b\x7d)`
(TS lines 322-324). -/
def get (svc : ApiService) (transport : Transport) (url : String)
    (params : Option String) (hasErrorMessage : Bool) (headers : HeaderMap) :
    Except AxiosError JSValue × List (Option String) :=
  svc.request transport
    { method := "get", url := url, params := params,
      hasErrorMessage := some hasErrorMessage, headers := headers }

/-- `post(url, data, hasErrorMessage = true, headers = \x7b\x7d)`
(TS lines 326-328). -/
def post (svc : ApiService) (transport : Transport) (url : String)
    (data : Option String) (hasErrorMessage : Bool) (headers : HeaderMap) :
    Except AxiosError JSValue × List (Option String) :=
  svc.request transport
    { method := "post", url := url, data := data,
      hasErrorMessage := some hasErrorMessage, headers := headers }

/-- `put(url, data, hasErrorMessage = true, headers = \x7b\x7d)`
(TS lines 330-332). -/
def put (svc : ApiService) (transport : Transport) (url : String)
    (data : Option String) (hasErrorMessage : Bool) (headers : HeaderMap) :
    Except AxiosError JSValue × List (Option String) :=
  svc.request transport
    { method := "put", url := url, data := data,
      hasErrorMessage := some hasErrorMessage, headers := headers }

/-- `delete(url, params, hasErrorMessage = true, headers = \x7b\x7d)`
(TS lines 334-336). -/
def delete (svc : ApiService) (transport : Transport) (url : String)
    (params : Option String) (hasErrorMessage : Bool) (headers : HeaderMap) :
    Except AxiosError JSValue × List (Option String) :=
  svc.request transport
    { method := "delete", url := url, params := params,
      hasErrorMessage := some hasErrorMessage, headers := headers }

/-- The extra config object accepted by `upload`; a field is `some`
exactly when the corresponding key is present on the object, so that
the top-level spread `...config` is modelled key by key. -/
structure ExtraConfig where
  method : Option String := none
  url : Option String := none
  data : Option String := none
  headers : Option HeaderMap := none
  hasErrorMessage : Option Bool := none
  returnFullResponse : Option Bool := none

/-- The single-entry header object `\x7b 'Content-Type':
'multipart/form-data' \x7d`. -/
def multipartHeader : HeaderMap :=
  fun k => if k = "Content-Type" then some "multipart/form-data" else none

/-- The descriptor literal built by `upload` (TS lines 342-348):
`\x7b method: 'post', url, data: formData, headers: \x7b 'Content-Type':
'multipart/form-data', ...config.headers \x7d, ...config \x7d`.  The
trailing `...config` spread runs last, so any key present on `config`
— including `headers`, which then replaces the merged header object
wholesale — overrides the defaults before it. -/
def uploadConfig (url : String) (formData : String) (cfg : ExtraConfig) :
    RequestDescriptor :=
  let innerHeaders := objSpread multipartHeader (cfg.headers.getD emptyHeaders)
  { method := cfg.method.getD "post"
    url := cfg.url.getD url
    data := some (cfg.data.getD formData)
    headers := match cfg.headers with
      | some h => h
      | none => innerHeaders
    hasErrorMessage := cfg.hasErrorMessage
    returnFullResponse := cfg.returnFullResponse }

/-- `upload(url, formData, config = \x7b\x7d)` (TS lines 341-349):
builds the descriptor and delegates to `request`. -/
def upload (svc : ApiService) (transport : Transport) (url : String)
    (formData : String) (cfg : ExtraConfig) :
    Except AxiosError JSValue × List (Option String) :=
  svc.request transport (uploadConfig url formData cfg)

/-- `download(url, params, config = \x7b\x7d)` (TS lines 354-377),
with the DOM anchor-click save step (an external collaborator) elided.
Returns the settled outcome together with a flag recording whether the
transport was invoked.  In a non-browser environment (`typeof window
=== 'undefined'`) it warns and returns `undefined` without dispatching;
otherwise the blob GET goes through the interceptor pipeline and a
failure is re-thrown. -/
def download (svc : ApiService) (windowDefined : Bool)
    (outcome : Except AxiosError ResponseEnvelope) :
    Except AxiosError Unit × Bool :=
  if windowDefined = false then (.ok (), false)
  else
    match (svc.runCall outcome).1 with
    | .ok _ => (.ok (), true)
    | .error e => (.error e, true)

end ApiService

/-! ## Concrete fixtures used by witnesses and counterexamples -/

/-- A service with the default success code `200`, the default status
table, and an `onError` notifier configured. -/
def svcEx : ApiService := { hasOnError := true }

/-- A service whose custom status table maps `404` to the empty string. -/
def svcEmpty404 : ApiService :=
  { hasOnError := true, statusMap := fun s => if s = 404 then some "" else none }

/-- A successful envelope with business code `1001` whose originating
descriptor never set `hasErrorMessage`. -/
def respBiz1001 : ResponseEnvelope :=
  { headers := {}, config := {}, data := { code := .num 1001, msg := some "boom" } }

/-- A successful envelope with business code `1001` and
`hasErrorMessage: true`. -/
def respOkPayload : ResponseEnvelope :=
  { headers := {}, config := { hasErrorMessage := some true },
    data := { code := .num 1001, msg := some "boom" } }

/-- A successful envelope with `hasErrorMessage: true` and
`returnFullResponse: true`. -/
def respFull : ResponseEnvelope :=
  { headers := {},
    config := { hasErrorMessage := some true, returnFullResponse := some true },
    data := { code := .num 1001, msg := some "boom" } }

/-- A successful envelope whose descriptor set `hasErrorMessage: false`. -/
def respHemFalse : ResponseEnvelope :=
  { headers := {}, config := { hasErrorMessage := some false },
    data := { code := .num 1001, msg := some "boom" } }

/-- An HTTP failure with status `404` and `hasErrorMessage: true`. -/
def err404 : AxiosError :=
  { config := some { hasErrorMessage := some true },
    response := some { status := some 404 } }

/-- An HTTP failure with status `999`, absent from every table here. -/
def errSt999 : AxiosError :=
  { config := some { hasErrorMessage := some true },
    response := some { status := some 999 } }

/-- A pure network failure whose serialized form mentions a timeout. -/
def errNetTimeout : AxiosError := { serialized := "xhr timeout of 5000ms exceeded" }

/-- A pure network failure with no timeout marker. -/
def errNetPlain : AxiosError := { serialized := "network error" }

/-- An explicit cancellation failure. -/
def errCancel : AxiosError := { isCancel := true, message := "canceled" }

/-- A plain GET descriptor. -/
def descGetEx : ApiService.RequestDescriptor := { method := "get", url := "/u" }

/-- A transport that fulfils with `respHemFalse`. -/
def transpOkFalse : ApiService.Transport := fun _ => .ok respHemFalse

/-- A transport that rejects with `err404`. -/
def transpErr404 : ApiService.Transport := fun _ => .error err404

/-- A caller-supplied response-classification hook. -/
def hookEx : ResponseEnvelope → JSValue := fun _ => .raw "hooked"

/-- A service configured with the `hookEx` hook and a notifier. -/
def svcHook : ApiService := { hasOnError := true, responseInterceptor := some hookEx }

/-- Upload extra config supplying a headers object without a
`Content-Type` key. -/
def uplHdrCfg : ApiService.ExtraConfig :=
  { headers := some (fun k => if k = "X-Token" then some "t" else none) }

/-- Upload extra config overriding the method. -/
def uplMthCfg : ApiService.ExtraConfig := { method := some "put" }

/-- Upload extra config with no keys at all. -/
def uplNoCfg : ApiService.ExtraConfig := {}

/-! ## Claim theorems -/

/-- The `hasErrorMessage` flag recorded on a settled transport outcome:
axios echoes the dispatched request config into `response.config`
respectively `error.config`. -/
def outcomeHEM : Except AxiosError ResponseEnvelope → Option Bool
  | .ok r => r.config.hasErrorMessage
  | .error e => e.configHEM

/-- Claim C1, counterexample.  The claim conditions the success-path
notification on `hasErrorMessage` being "not explicitly false", but the
code tests truthiness (`hasErrorMessage && code !== successStatusCode`):
on an envelope whose descriptor never set the flag, the business code
`1001` differs from the configured `200` yet the notifier receives no
call.  Moreover with `returnFullResponse: true` the returned value is
the full envelope, not `response.data`. -/
theorem success_notifier_flag_cex :
    svcEx.hasOnError = true ∧
    respBiz1001.config.hasErrorMessage ≠ some false ∧
    respBiz1001.data.code ≠ JPrim.undef ∧
    respBiz1001.data.code ≠ svcEx.successStatusCode ∧
    (svcEx.successHandler respBiz1001).2 = [] ∧
    (svcEx.successHandler respFull).1 = JSValue.envelope respFull ∧
    JSValue.envelope respFull ≠ JSValue.payload respFull.data :=
  ⟨rfl, by decide, by decide, by decide, by decide, by decide, by decide⟩

/-- Claim C1, amended.  On the success path with no classification
hook, if the envelope carries a business code differing from the
configured success code and the descriptor's `hasErrorMessage` is
explicitly `true`, the notifier is invoked exactly once with the
business `msg` field; and provided the response is not blob-flagged and
`returnFullResponse` was not requested, the returned value is the
parsed payload `response.data`. -/
theorem success_notifier_business_code (svc : ApiService) (r : ResponseEnvelope)
    (hOn : svc.hasOnError = true) (hHook : svc.responseInterceptor = none)
    (hHem : r.config.hasErrorMessage = some true)
    (_hCarry : r.data.code ≠ JPrim.undef)
    (hCode : r.data.code ≠ svc.successStatusCode) :
    (svc.successHandler r).2 = [r.data.msg] ∧
    (r.headers.isBlob = false → jsTruthy r.config.returnFullResponse = false →
      (svc.successHandler r).1 = JSValue.payload r.data) := by
  unfold ApiService.successHandler
  rw [hHook]
  constructor
  · simp [hHem, jsTruthy, hCode, hOn]
  · intro hb hf
    simp [hb, hf]

/-- Claim C1, witness. -/
theorem success_notifier_business_code_wit :
    (svcEx.successHandler respOkPayload).2 = [respOkPayload.data.msg] ∧
    (svcEx.successHandler respOkPayload).1 = JSValue.payload respOkPayload.data :=
  ⟨(success_notifier_business_code svcEx respOkPayload rfl rfl rfl
      (by decide) (by decide)).1,
   (success_notifier_business_code svcEx respOkPayload rfl rfl rfl
      (by decide) (by decide)).2 rfl rfl⟩

/-- Claim C2.  A request whose descriptor set `hasErrorMessage: false`
(the flag axios echoes onto the settled outcome) never invokes the
notifier: the success handler's truthiness test fails, and the error
handler's `!== false` guard fails, on every outcome — fulfilled,
HTTP failure, network failure, or cancellation. -/
theorem hem_false_silences_notifier (svc : ApiService)
    (transport : ApiService.Transport) (desc : ApiService.RequestDescriptor)
    (h : outcomeHEM (transport desc) = some false) :
    (svc.request transport desc).2 = [] := by
  unfold ApiService.request ApiService.runCall
  cases hout : transport desc with
  | ok r =>
    rw [hout] at h
    simp only [outcomeHEM] at h
    simp [ApiService.successHandler, h, jsTruthy]
    cases svc.responseInterceptor <;> simp
  | error e =>
    rw [hout] at h
    simp only [outcomeHEM] at h
    simp [ApiService.errorHandler, h]

/-- Claim C2, witness. -/
theorem hem_false_silences_notifier_wit :
    (svcEx.request transpOkFalse descGetEx).2 = [] :=
  hem_false_silences_notifier svcEx transpOkFalse descGetEx rfl

/-- Claim C5.  A cancellation failure is re-raised unchanged: no
message is resolved and the notifier is never invoked, whatever the
descriptor's `hasErrorMessage` flag. -/
theorem cancellation_passthrough (svc : ApiService) (e : AxiosError)
    (hc : e.isCancel = true) :
    svc.runCall (.error e) = (.error e, []) := by
  simp [ApiService.runCall, ApiService.errorHandler, hc]

/-- Claim C5, witness. -/
theorem cancellation_passthrough_wit :
    svcEx.runCall (.error errCancel) = (.error errCancel, []) :=
  cancellation_passthrough svcEx errCancel rfl

/-- Claim C8.  When a caller-supplied response-classification hook is
configured, its return value on the envelope is the fulfilled result of
the call and nothing of the default policy runs: no notifier call, no
business-code check, no payload/envelope selection. -/
theorem hook_overrides_default_policy (svc : ApiService)
    (hook : ResponseEnvelope → JSValue) (r : ResponseEnvelope)
    (hh : svc.responseInterceptor = some hook) :
    svc.runCall (.ok r) = (.ok (hook r), []) := by
  simp [ApiService.runCall, ApiService.successHandler, hh]

/-- Claim C8, witness. -/
theorem hook_overrides_default_policy_wit :
    svcHook.runCall (.ok respBiz1001) = (.ok (hookEx respBiz1001), []) :=
  hook_overrides_default_policy svcHook hookEx respBiz1001 rfl

/-- Claim C10.  In a non-browser environment (`typeof window ===
'undefined'`), `download` returns successfully with no value, without
dispatching to the transport and without raising. -/
theorem download_nonbrowser_noop (svc : ApiService)
    (outcome : Except AxiosError ResponseEnvelope) :
    svc.download false outcome = (.ok (), false) := rfl

/-- Claim C3, counterexample.  The lookup `status &&
this.statusMap[status]` tests truthiness of the table entry, so a
custom table mapping `404` to the empty string — the status is present
in the table — still resolves the fallback `连接错误404` instead of the
entry. -/
theorem status_table_empty_entry_cex :
    svcEmpty404.statusMap 404 = some "" ∧
    err404.configHEM ≠ some false ∧
    (svcEmpty404.errorHandler err404).1.message = "连接错误404" ∧
    ("连接错误404" : String) ≠ "" :=
  ⟨by decide, by decide, by decide, by decide⟩

/-- Claim C3, amended.  For a non-cancelled failure carrying a nonzero
HTTP status whose descriptor's `hasErrorMessage` is not explicitly
false, the message attached to the re-raised failure equals the
StatusMessageTable entry when the status is present with a non-empty
entry, and equals `连接错误` followed by the status when the status is
absent from the table or its entry is the empty string. -/
theorem http_status_message_resolution (svc : ApiService) (e : AxiosError)
    (resp : ErrResponse) (s : Nat)
    (hc : e.isCancel = false) (hm : e.configHEM ≠ some false)
    (hr : e.response = some resp) (hs : resp.status = some s) (hnz : s ≠ 0) :
    (∀ m, svc.statusMap s = some m → m ≠ "" →
      (svc.errorHandler e).1.message = m) ∧
    (svc.statusMap s = none ∨ svc.statusMap s = some "" →
      (svc.errorHandler e).1.message = "连接错误" ++ toString s) := by
  unfold ApiService.errorHandler ApiService.httpStatusMessage
  constructor
  · intro m hmap hne
    simp [hc, hm, hr, hs, hnz, hmap, hne]
  · rintro (hmap | hmap) <;> simp [hc, hm, hr, hs, hnz, hmap]

/-- Claim C3, witness: status `404` against the built-in table resolves
its entry; status `999`, absent from the table, resolves the fallback. -/
theorem http_status_message_resolution_wit :
    (svcEx.errorHandler err404).1.message = "请求错误,未找到该资源" ∧
    (svcEx.errorHandler errSt999).1.message = "连接错误999" :=
  ⟨(http_status_message_resolution svcEx err404 { status := some 404 } 404
      rfl (by decide) rfl rfl (by decide)).1 "请求错误,未找到该资源" (by decide) (by decide),
   ((http_status_message_resolution svcEx errSt999 { status := some 999 } 999
      rfl (by decide) rfl rfl (by decide)).2 (Or.inl (by decide))).trans (by decide)⟩

/-- Claim C4.  For a non-cancelled failure with no attached HTTP
response whose descriptor's `hasErrorMessage` is not explicitly false,
the resolved message is the generic connection-failure string, upgraded
to the timeout string exactly when the serialized form of the failure
contains the substring `timeout`. -/
theorem network_failure_message (svc : ApiService) (e : AxiosError)
    (hc : e.isCancel = false) (hm : e.configHEM ≠ some false)
    (hr : e.response = none) :
    (svc.errorHandler e).1.message =
      if jsIncludes e.serialized "timeout" then "服务器响应超时，请刷新当前页"
      else "连接服务器失败" := by
  unfold ApiService.errorHandler
  simp [hc, hm, hr]

/-- Claim C4, witness: a serialized form mentioning a timeout yields
the timeout message; one that does not yields the generic message. -/
theorem network_failure_message_wit :
    (svcEx.errorHandler errNetTimeout).1.message = "服务器响应超时，请刷新当前页" ∧
    (svcEx.errorHandler errNetPlain).1.message = "连接服务器失败" :=
  ⟨(network_failure_message svcEx errNetTimeout rfl (by decide) rfl).trans (by decide),
   (network_failure_message svcEx errNetPlain rfl (by decide) rfl).trans (by decide)⟩

/-- Claim C6.  Every transport failure is re-raised to the caller of
`request` (and hence of the verb helpers, which delegate to it): the
settled value is a rejection carrying the original error object,
altered at most in its `message` slot — never a fulfilled result. -/
theorem failure_always_reraised (svc : ApiService)
    (transport : ApiService.Transport) (desc : ApiService.RequestDescriptor)
    (e : AxiosError) (h : transport desc = .error e) :
    (svc.request transport desc).1 = .error ((svc.errorHandler e).1) ∧
    (svc.errorHandler e).1 = { e with message := (svc.errorHandler e).1.message } := by
  constructor
  · unfold ApiService.request ApiService.runCall
    rw [h]
  · unfold ApiService.errorHandler
    split
    · rfl
    · split <;> rfl

/-- Claim C6, witness. -/
theorem failure_always_reraised_wit :
    (svcEx.request transpErr404 descGetEx).1 = .error ((svcEx.errorHandler err404).1) :=
  (failure_always_reraised svcEx transpErr404 descGetEx err404 rfl).1

/-- Claim C7.  On the success path with no classification hook, the
full envelope (headers included) is returned exactly when the response
is blob-flagged or `returnFullResponse` was requested; otherwise only
the parsed payload `response.data` is returned. -/
theorem success_shape_selection (svc : ApiService) (r : ResponseEnvelope)
    (hHook : svc.responseInterceptor = none) :
    ((svc.successHandler r).1 = JSValue.envelope r ↔
      (r.headers.isBlob = true ∨ jsTruthy r.config.returnFullResponse = true)) ∧
    (r.headers.isBlob = false → jsTruthy r.config.returnFullResponse = false →
      (svc.successHandler r).1 = JSValue.payload r.data) := by
  unfold ApiService.successHandler
  rw [hHook]
  by_cases hb : r.headers.isBlob <;>
    by_cases hf : jsTruthy r.config.returnFullResponse <;>
      simp [hb, hf]

/-- Claim C7, witness: `returnFullResponse: true` yields the full
envelope. -/
theorem success_shape_selection_wit :
    (svcEx.successHandler respFull).1 = JSValue.envelope respFull :=
  (success_shape_selection svcEx respFull rfl).1.mpr (Or.inr rfl)

/-- Claim C9, counterexample.  `upload` spreads `...config` after the
merged header object, so a config carrying any `headers` object —
here one with only an `X-Token` key and no `Content-Type` at all —
replaces the headers wholesale and the multipart `Content-Type` is
lost; a config carrying a `method` key likewise overrides the POST. -/
theorem upload_config_spread_cex :
    (uplHdrCfg.headers.getD emptyHeaders) "Content-Type" = none ∧
    (ApiService.uploadConfig "/u" "fd" uplHdrCfg).headers "Content-Type" = none ∧
    (ApiService.uploadConfig "/u" "fd" uplMthCfg).method = "put" :=
  ⟨by decide, by decide, by decide⟩

/-- Claim C9, amended.  `upload` delegates to `request` with the
descriptor built from its literal; that descriptor's method is POST
whenever `extraConfig` does not supply a `method` key, and its
`Content-Type` header is `multipart/form-data` whenever `extraConfig`
does not supply a `headers` key; when `extraConfig` does supply a
`headers` object, the descriptor's headers are exactly that object (the
multipart default is discarded even if no alternative `Content-Type` is
given). -/
theorem upload_descriptor_spec (svc : ApiService)
    (transport : ApiService.Transport) (url formData : String)
    (cfg : ApiService.ExtraConfig) :
    svc.upload transport url formData cfg =
      svc.request transport (ApiService.uploadConfig url formData cfg) ∧
    (cfg.method = none → (ApiService.uploadConfig url formData cfg).method = "post") ∧
    (cfg.headers = none →
      (ApiService.uploadConfig url formData cfg).headers "Content-Type" =
        some "multipart/form-data") ∧
    (∀ hs, cfg.headers = some hs →
      (ApiService.uploadConfig url formData cfg).headers = hs) := by
  refine ⟨rfl, ?_, ?_, ?_⟩
  · intro hm
    simp [ApiService.uploadConfig, hm]
  · intro hh
    simp [ApiService.uploadConfig, hh, objSpread, ApiService.multipartHeader,
      emptyHeaders]
  · intro hs hh
    simp [ApiService.uploadConfig, hh]

/-- Claim C9, witness: with no extra config keys the descriptor is a
POST carrying the multipart content type. -/
theorem upload_descriptor_spec_wit :
    (ApiService.uploadConfig "/u" "fd" uplNoCfg).method = "post" ∧
    (ApiService.uploadConfig "/u" "fd" uplNoCfg).headers "Content-Type" =
      some "multipart/form-data" :=
  ⟨(upload_descriptor_spec svcEx transpErr404 "/u" "fd" uplNoCfg).2.1 rfl,
   (upload_descriptor_spec svcEx transpErr404 "/u" "fd" uplNoCfg).2.2.1 rfl⟩
